import Mathlib

/-!
Formal model of the PM10 forecasting pipeline of `predict_model.py`:
per-row feature derivation (season, weekend, holiday), sequence windowing
(`create_sequence`, `df.tail(3)`), the risk-tier decision and the alert
message composition of `predict_from_last_sequence`.
-/

namespace PredictModel

/-- A numeric cell of the transformed data frame: a rational value, or `nan`
for a missing reading (pandas float NaN; only the `PM10` column may be
missing by design). -/
inductive Val where
  | num : ℚ → Val
  | nan : Val
deriving DecidableEq

/-- One transformed observation row, with the fields built by
`get_last_observations_transformed`: `Month, Tavg, Pavg, Wavg, Huavg, Pravg,
PM10, IsWeekend, IsHoliday, Season`. -/
structure FeatureRow where
  month : ℚ
  tavg : ℚ
  pavg : ℚ
  wavg : ℚ
  huavg : ℚ
  pravg : ℚ
  pm10 : Val
  isWeekend : ℚ
  isHoliday : ℚ
  season : ℚ
deriving DecidableEq

/-- The values of one transformed row in the data frame's column order
`[Month, Tavg, Pavg, Wavg, Huavg, Pravg, PM10, IsWeekend, IsHoliday,
Season]` (the dict insertion order in the source, hence the order
`.values.flatten()` emits). -/
def rowVals (r : FeatureRow) : List Val :=
  [.num r.month, .num r.tavg, .num r.pavg, .num r.wavg, .num r.huavg,
   .num r.pravg, r.pm10, .num r.isWeekend, .num r.isHoliday, .num r.season]

/-- `get_season` of `predict_model.py`: the meteorological season code of a
month/day pair (Winter = 4, Spring = 1, Summer = 2, Autumn = 3). -/
def get_season (month day : ℕ) : ℕ :=
  if (month = 12 ∧ 21 ≤ day) ∨ (month = 1 ∨ month = 2) ∨ (month = 3 ∧ day ≤ 20) then 4
  else if (month = 3 ∧ 21 ≤ day) ∨ (month = 4 ∨ month = 5) ∨ (month = 6 ∧ day ≤ 20) then 1
  else if (month = 6 ∧ 21 ≤ day) ∨ (month = 7 ∨ month = 8) ∨ (month = 9 ∧ day ≤ 20) then 2
  else 3

/-- A calendar date, as the holiday lookup sees it. -/
structure CalDate where
  year : ℤ
  month : ℕ
  day : ℕ
deriving DecidableEq

/-- The state of a `holidays.HolidayBase` calendar object: the set of years
whose holidays have been computed into its dict so far. -/
structure HolidayCalendar where
  populatedYears : Finset ℤ
deriving DecidableEq

/-- `holidays.Poland(years=range(2015, 2030))`: construction eagerly
populates the years 2015–2029 (Python `range` is half-open). -/
def mkPlHolidays : HolidayCalendar :=
  ⟨Finset.Ico 2015 2030⟩

/-- `date in pl_holidays`: the library's membership test under its default
`expand=True` — a lookup on a year not yet populated first computes that
year's holidays into the calendar, so the answer is the national rule's
verdict for every date, not only for the eagerly populated years.
`holidayRule` abstracts the library's per-date Polish holiday rule; the
second component is the calendar state after the lookup. -/
def holidayContains (holidayRule : CalDate → Bool) (cal : HolidayCalendar)
    (d : CalDate) : Bool × HolidayCalendar :=
  if d.year ∈ cal.populatedYears then (holidayRule d, cal)
  else (holidayRule d, ⟨insert d.year cal.populatedYears⟩)

/-- The `IsHoliday` feature value, `int(date.date() in pl_holidays)`. -/
def isHolidayFlag (holidayRule : CalDate → Bool) (cal : HolidayCalendar)
    (d : CalDate) : ℕ :=
  if (holidayContains holidayRule cal d).1 then 1 else 0

/-- `create_sequence`: the while loop walks the frame in consecutive chunks
of up to 3 rows, flattening each chunk row-major (`.values.flatten()`) into
one vector. -/
def createSequence : List FeatureRow → List (List Val)
  | [] => []
  | [a] => [rowVals a]
  | [a, b] => [rowVals a ++ rowVals b]
  | a :: b :: c :: rest => (rowVals a ++ rowVals b ++ rowVals c) :: createSequence rest

/-- `df.tail(3)` in `get_last_observations_transformed`: the last
`min 3 n` rows of the frame. -/
def tail3 (rows : List FeatureRow) : List FeatureRow :=
  rows.drop (rows.length - 3)

/-- The live windowing pipeline: `get_last_observations_transformed` keeps
`df.tail(3)`, then `predict_from_last_sequence` flattens via
`create_sequence` and uses the first produced vector (`iloc[0]` /
`prob_class_1[0]`). -/
def windowVector (rows : List FeatureRow) : List Val :=
  (createSequence (tail3 rows)).headD []

/-- Round half to even, as CPython rounds floats for `round` and for
fixed-precision formatting. -/
def roundHalfEven (q : ℚ) : ℤ :=
  if q - ⌊q⌋ < 1/2 then ⌊q⌋
  else if 1/2 < q - ⌊q⌋ then ⌊q⌋ + 1
  else if ⌊q⌋ % 2 = 0 then ⌊q⌋ else ⌊q⌋ + 1

/-- Python `f"{x:.0f}"` on a possibly-missing value: a missing value (float
NaN) renders as the text `nan`; a number renders as its nearest integer. -/
def formatF0 : Val → String
  | .nan => "nan"
  | .num q => toString (roundHalfEven q)

/-- `round(risk_probability * 100, 1)`: the displayed percentage. -/
def confidencePct (p : ℚ) : ℚ :=
  (roundHalfEven (p * 1000) : ℚ) / 10

/-- Python `x < q` where `x` is a float that may be NaN: every comparison
with NaN is false. -/
def Val.ltQ : Val → ℚ → Bool
  | .num x, q => decide (x < q)
  | .nan, _ => false

/-- Python `x > q` where `x` is a float that may be NaN. -/
def Val.gtQ : Val → ℚ → Bool
  | .num x, q => decide (q < x)
  | .nan, _ => false

/-- One `message += ...` statement of `predict_from_last_sequence`, with the
values interpolated into its text. -/
inductive Segment where
  | header (ts : String)
  | probLine (pct : ℚ)
  | condLine (temp wind pressure : Val)
  | baseLine (pm10Text : String)
  | highMarker
  | highBody (pct : ℚ)
  | limitedDispersion (wind : Val)
  | accumulation (pressure : Val)
  | highRec
  | moderateMarker
  | moderateBody (pct : ℚ)
  | moderateRec
  | lowMarker
  | lowBody (pct : ℚ)
  | goodDispersion (wind : Val)
  | lowOutlook
  | footer
deriving DecidableEq

/-- The message built by `predict_from_last_sequence` (the `message = ...`
and `message += ...` lines), as the ordered list of appended segments.
`ts` is the `datetime.now()` timestamp string; it is interpolated into the
header line only. -/
def composeMessage (ts : String) (riskProbability : ℚ) (wind pressure temp pm10 : Val) :
    List Segment :=
  [Segment.header ts, Segment.probLine (confidencePct riskProbability),
   Segment.condLine temp wind pressure, Segment.baseLine (formatF0 pm10)]
  ++ (if riskProbability > 7/10 then
        [Segment.highMarker, Segment.highBody (confidencePct riskProbability)]
        ++ (if Val.ltQ wind 2 then [Segment.limitedDispersion wind] else [])
        ++ (if Val.gtQ pressure 1020 then [Segment.accumulation pressure] else [])
        ++ [Segment.highRec]
      else if riskProbability > 4/10 then
        [Segment.moderateMarker, Segment.moderateBody (confidencePct riskProbability),
         Segment.moderateRec]
      else
        [Segment.lowMarker, Segment.lowBody (confidencePct riskProbability)]
        ++ (if Val.gtQ wind 4 then [Segment.goodDispersion wind] else [])
        ++ [Segment.lowOutlook])
  ++ [Segment.footer]

/-- How one run of `predict_from_last_sequence` ends: the early return on
fewer than 3 rows, the exception a failing `joblib.load` raises, or normal
completion. -/
inductive Outcome where
  | notEnoughData
  | modelLoadFailure
  | completed
deriving DecidableEq

/-- What one run of `predict_from_last_sequence` did: the rows handed to
`model.predict_proba` and the messages handed to `send_to_discord`. -/
structure RunTrace where
  outcome : Outcome
  classifierInputs : List (List Val)
  sentMessages : List (List Segment)
deriving DecidableEq

/-- `pd.DataFrame(sequences)` pads ragged rows with NaN up to the widest
row; with at least one full chunk present the width is 30. -/
def padTo30 (s : List Val) : List Val :=
  s ++ List.replicate (30 - s.length) Val.nan

/-- `predict_from_last_sequence`: guard on fewer than 3 rows, build the
sequence frame, load the model (`loadedModel = none` models a failing
`joblib.load`), predict on the frame, and compose the message from columns
`Tavg_3, Wavg_3, Pravg_3, PM10_3` (indices 21, 23, 25, 26 of the first
vector) before sending it. -/
def predictFromLastSequence (df : List FeatureRow) (loadedModel : Option (List Val → ℚ))
    (ts : String) : RunTrace :=
  if df.length < 3 then ⟨.notEnoughData, [], []⟩
  else
    let seqDf := (createSequence df).map padTo30
    match loadedModel with
    | none => ⟨.modelLoadFailure, [], []⟩
    | some model =>
      let vec := seqDf.headD []
      let riskProbability := model vec
      let wind := vec.getD 23 .nan
      let pressure := vec.getD 25 .nan
      let temp := vec.getD 21 .nan
      let pm10 := vec.getD 26 .nan
      ⟨.completed, seqDf, [composeMessage ts riskProbability wind pressure temp pm10]⟩

/-- A sample transformed row (a winter weekday). -/
def obsA : FeatureRow :=
  ⟨1, -2, 0, 3, 80, 1015, .num 40, 0, 0, 4⟩

/-- A second sample transformed row. -/
def obsB : FeatureRow :=
  ⟨1, 0, 1, 2, 85, 1018, .num 50, 0, 0, 4⟩

/-- A third sample transformed row (calm, high pressure). -/
def obsC : FeatureRow :=
  ⟨1, 5, 0, 1, 90, 1025, .num 60, 1, 0, 4⟩

/-- A sample row whose PM10 reading is missing. -/
def obsN : FeatureRow :=
  ⟨1, 5, 0, 1, 90, 1025, .nan, 1, 0, 4⟩

/-- A stub classifier returning a fixed probability. -/
def stubModel : List Val → ℚ :=
  fun _ => 8/10

lemma rowVals_length (r : FeatureRow) : (rowVals r).length = 10 := rfl

lemma tail3_of_three_le (rows : List FeatureRow) (h : 3 ≤ rows.length) :
    ∃ pre a b c, rows = pre ++ [a, b, c] ∧ tail3 rows = [a, b, c] := by
  have hl : (tail3 rows).length = 3 := by
    simp only [tail3, List.length_drop]
    omega
  obtain ⟨a, b, c, habc⟩ := List.length_eq_three.mp hl
  refine ⟨rows.take (rows.length - 3), a, b, c, ?_, habc⟩
  rw [← habc]
  exact (List.take_append_drop _ _).symm

/-- C1: for a history of at least 3 chronologically ordered rows, the live
windowing pipeline (`df.tail(3)` then `create_sequence`, first vector)
flattens exactly the last 3 rows into one 30-wide vector: the oldest of the
3 fills the first 10-column block, the middle row the second, the most
recent row the third, each block in the fixed column order of `rowVals`;
in particular the last 10 entries are the most recent row's fields. -/
theorem c1_window_last3 (rows : List FeatureRow) (h : 3 ≤ rows.length) :
    ∃ pre a b c, rows = pre ++ [a, b, c] ∧
      windowVector rows = rowVals a ++ rowVals b ++ rowVals c ∧
      (windowVector rows).length = 30 ∧
      (windowVector rows).drop 20 = rowVals c := by
  obtain ⟨pre, a, b, c, hsplit, htail⟩ := tail3_of_three_le rows h
  have hw : windowVector rows = rowVals a ++ rowVals b ++ rowVals c := by
    rw [windowVector, htail]; rfl
  refine ⟨pre, a, b, c, hsplit, hw, ?_, ?_⟩
  · rw [hw]; simp [rowVals]
  · rw [hw]
    have h20 : (rowVals a ++ rowVals b).length = 20 := by simp [rowVals]
    calc (rowVals a ++ rowVals b ++ rowVals c).drop 20
        = (rowVals a ++ rowVals b ++ rowVals c).drop (rowVals a ++ rowVals b).length := by
          rw [h20]
      _ = rowVals c := List.drop_left _ _

/-- C1 witness: the windowing property at a concrete 3-row history. -/
theorem c1_window_last3_witness :
    ∃ pre a b c, ([obsA, obsB, obsC] : List FeatureRow) = pre ++ [a, b, c] ∧
      windowVector [obsA, obsB, obsC] = rowVals a ++ rowVals b ++ rowVals c ∧
      (windowVector [obsA, obsB, obsC]).length = 30 ∧
      (windowVector [obsA, obsB, obsC]).drop 20 = rowVals c :=
  c1_window_last3 [obsA, obsB, obsC] (by decide)

/-- C3: `get_season` is total into {1, 2, 3, 4}, and on every calendar date
(month 1–12, day 1–31, encoded below as `100 * month + day`) it is
boundary-exact: Dec 21–Mar 20 is Winter (4), Mar 21–Jun 20 is Spring (1),
Jun 21–Sep 20 is Summer (2), Sep 21–Dec 20 is Autumn (3); in particular
Dec 20 → 3, Dec 21 → 4, Mar 20 → 4, Mar 21 → 1, Jun 20 → 1, Jun 21 → 2,
Sep 20 → 2, Sep 21 → 3. -/
theorem c3_season_boundaries :
    (∀ m d : ℕ,
      get_season m d = 1 ∨ get_season m d = 2 ∨ get_season m d = 3 ∨ get_season m d = 4) ∧
    (∀ m ∈ Finset.Icc 1 12, ∀ d ∈ Finset.Icc 1 31,
      ((get_season m d = 4 ↔ (1221 ≤ 100 * m + d ∨ 100 * m + d ≤ 320)) ∧
       (get_season m d = 1 ↔ (321 ≤ 100 * m + d ∧ 100 * m + d ≤ 620)) ∧
       (get_season m d = 2 ↔ (621 ≤ 100 * m + d ∧ 100 * m + d ≤ 920)) ∧
       (get_season m d = 3 ↔ (921 ≤ 100 * m + d ∧ 100 * m + d ≤ 1220)))) ∧
    get_season 12 20 = 3 ∧ get_season 12 21 = 4 ∧ get_season 3 20 = 4 ∧ get_season 3 21 = 1 ∧
    get_season 6 20 = 1 ∧ get_season 6 21 = 2 ∧ get_season 9 20 = 2 ∧ get_season 9 21 = 3 := by
  refine ⟨?_, ?_, ?_, ?_, ?_, ?_, ?_, ?_, ?_, ?_⟩
  · intro m d
    unfold get_season
    split_ifs <;> simp
  · decide
  all_goals decide

lemma highMarker_mem_iff (ts : String) (p : ℚ) (w pr t pm : Val) :
    Segment.highMarker ∈ composeMessage ts p w pr t pm ↔ 7/10 < p := by
  unfold composeMessage
  split_ifs <;> simp_all

lemma moderateMarker_mem_iff (ts : String) (p : ℚ) (w pr t pm : Val) :
    Segment.moderateMarker ∈ composeMessage ts p w pr t pm ↔ (4/10 < p ∧ p ≤ 7/10) := by
  unfold composeMessage
  split_ifs <;> simp_all [← not_lt]

lemma lowMarker_mem_iff (ts : String) (p : ℚ) (w pr t pm : Val) :
    Segment.lowMarker ∈ composeMessage ts p w pr t pm ↔ p ≤ 4/10 := by
  unfold composeMessage
  split_ifs <;> simp_all [← not_lt] <;> linarith

lemma limitedDispersion_mem_iff (ts : String) (p : ℚ) (w pr t pm : Val) :
    Segment.limitedDispersion w ∈ composeMessage ts p w pr t pm ↔
      (7/10 < p ∧ Val.ltQ w 2 = true) := by
  unfold composeMessage
  split_ifs <;> simp_all

lemma accumulation_mem_iff (ts : String) (p : ℚ) (w pr t pm : Val) :
    Segment.accumulation pr ∈ composeMessage ts p w pr t pm ↔
      (7/10 < p ∧ Val.gtQ pr 1020 = true) := by
  unfold composeMessage
  split_ifs <;> simp_all

lemma goodDispersion_mem_iff (ts : String) (p : ℚ) (w pr t pm : Val) :
    Segment.goodDispersion w ∈ composeMessage ts p w pr t pm ↔
      (¬ 7/10 < p ∧ ¬ 4/10 < p ∧ Val.gtQ w 4 = true) := by
  unfold composeMessage
  split_ifs <;> simp_all

/-- C2: the tier markers of the composed message realize the thresholds
exactly: High iff `p > 0.7`, Moderate iff `0.4 < p ≤ 0.7`, Low iff
`p ≤ 0.4`; the markers are mutually exclusive and one is always present;
and the stated boundary probabilities pick the stated tiers. -/
theorem c2_tier_thresholds :
    (∀ p : ℚ, 0 ≤ p → p ≤ 1 → ∀ (ts : String) (w pr t pm : Val),
      ((Segment.highMarker ∈ composeMessage ts p w pr t pm ↔ 7/10 < p) ∧
       (Segment.moderateMarker ∈ composeMessage ts p w pr t pm ↔ (4/10 < p ∧ p ≤ 7/10)) ∧
       (Segment.lowMarker ∈ composeMessage ts p w pr t pm ↔ p ≤ 4/10)) ∧
      ¬ (Segment.highMarker ∈ composeMessage ts p w pr t pm ∧
         Segment.moderateMarker ∈ composeMessage ts p w pr t pm) ∧
      ¬ (Segment.highMarker ∈ composeMessage ts p w pr t pm ∧
         Segment.lowMarker ∈ composeMessage ts p w pr t pm) ∧
      ¬ (Segment.moderateMarker ∈ composeMessage ts p w pr t pm ∧
         Segment.lowMarker ∈ composeMessage ts p w pr t pm) ∧
      (Segment.highMarker ∈ composeMessage ts p w pr t pm ∨
       Segment.moderateMarker ∈ composeMessage ts p w pr t pm ∨
       Segment.lowMarker ∈ composeMessage ts p w pr t pm)) ∧
    (Segment.moderateMarker ∈ composeMessage "" (7/10) .nan .nan .nan .nan ∧
     Segment.highMarker ∉ composeMessage "" (7/10) .nan .nan .nan .nan) ∧
    Segment.highMarker ∈ composeMessage "" (70001/100000) .nan .nan .nan .nan ∧
    (Segment.lowMarker ∈ composeMessage "" (4/10) .nan .nan .nan .nan ∧
     Segment.moderateMarker ∉ composeMessage "" (4/10) .nan .nan .nan .nan) ∧
    Segment.moderateMarker ∈ composeMessage "" (40001/100000) .nan .nan .nan .nan := by
  constructor
  · intro p h0 h1 ts w pr t pm
    have hh := highMarker_mem_iff ts p w pr t pm
    have hm := moderateMarker_mem_iff ts p w pr t pm
    have hl := lowMarker_mem_iff ts p w pr t pm
    refine ⟨⟨hh, hm, hl⟩, ?_, ?_, ?_, ?_⟩
    · rintro ⟨ha, hb⟩
      rw [hh] at ha
      rw [hm] at hb
      linarith [hb.2]
    · rintro ⟨ha, hb⟩
      rw [hh] at ha
      rw [hl] at hb
      linarith
    · rintro ⟨ha, hb⟩
      rw [hm] at ha
      rw [hl] at hb
      linarith [ha.1]
    · rcases le_or_lt p (4/10) with h | h
      · exact Or.inr (Or.inr (hl.mpr h))
      · rcases le_or_lt p (7/10) with h7 | h7
        · exact Or.inr (Or.inl (hm.mpr ⟨h, h7⟩))
        · exact Or.inl (hh.mpr h7)
  · refine ⟨⟨?_, ?_⟩, ?_, ⟨?_, ?_⟩, ?_⟩
    · exact (moderateMarker_mem_iff "" (7/10) .nan .nan .nan .nan).mpr (by norm_num)
    · rw [highMarker_mem_iff]
      norm_num
    · exact (highMarker_mem_iff "" (70001/100000) .nan .nan .nan .nan).mpr (by norm_num)
    · exact (lowMarker_mem_iff "" (4/10) .nan .nan .nan .nan).mpr (by norm_num)
    · rw [moderateMarker_mem_iff]
      norm_num
    · exact (moderateMarker_mem_iff "" (40001/100000) .nan .nan .nan .nan).mpr (by norm_num)

/-- C4: message composition is a deterministic, pure function of its inputs
(probability, latest-row context, timestamp): identical inputs give
identical output, and the timestamp — the `datetime.now()` value taken as
the explicit input `ts` — is interpolated only into the leading display
header, so every segment after the header is independent of it. -/
theorem c4_compose_pure :
    ∀ (ts1 ts2 : String) (p : ℚ) (w pr t pm : Val),
      (composeMessage ts1 p w pr t pm).head? = some (Segment.header ts1) ∧
      (composeMessage ts1 p w pr t pm).tail = (composeMessage ts2 p w pr t pm).tail ∧
      (ts1 = ts2 → composeMessage ts1 p w pr t pm = composeMessage ts2 p w pr t pm) :=
  fun _ _ _ _ _ _ _ => ⟨rfl, rfl, fun h => by rw [h]⟩

/-- C6: the "limited dispersion" caveat appears exactly in the High tier
with wind < 2 m/s, the "accumulation-promoting" caveat exactly in the High
tier with pressure > 1020 hPa, the "good dispersion" note exactly in the
Low tier with wind > 4 m/s; the two High-tier caveats are independent (both
appear together on the end-to-end scenario input). -/
theorem c6_contextual_annotations :
    (∀ (ts : String) (p wind pressure temp : ℚ) (pm : Val),
      (Segment.limitedDispersion (.num wind) ∈
          composeMessage ts p (.num wind) (.num pressure) (.num temp) pm ↔
        (7/10 < p ∧ wind < 2)) ∧
      (Segment.accumulation (.num pressure) ∈
          composeMessage ts p (.num wind) (.num pressure) (.num temp) pm ↔
        (7/10 < p ∧ 1020 < pressure)) ∧
      (Segment.goodDispersion (.num wind) ∈
          composeMessage ts p (.num wind) (.num pressure) (.num temp) pm ↔
        (p ≤ 4/10 ∧ 4 < wind))) ∧
    (Segment.limitedDispersion (.num 1) ∈
        composeMessage "x" (8/10) (.num 1) (.num 1025) (.num 5) (.num 60) ∧
     Segment.accumulation (.num 1025) ∈
        composeMessage "x" (8/10) (.num 1) (.num 1025) (.num 5) (.num 60)) := by
  have hlim : ∀ (ts : String) (p wind pressure temp : ℚ) (pm : Val),
      Segment.limitedDispersion (.num wind) ∈
        composeMessage ts p (.num wind) (.num pressure) (.num temp) pm ↔
      (7/10 < p ∧ wind < 2) := by
    intro ts p wind pressure temp pm
    rw [limitedDispersion_mem_iff]
    simp [Val.ltQ]
  have hacc : ∀ (ts : String) (p wind pressure temp : ℚ) (pm : Val),
      Segment.accumulation (.num pressure) ∈
        composeMessage ts p (.num wind) (.num pressure) (.num temp) pm ↔
      (7/10 < p ∧ 1020 < pressure) := by
    intro ts p wind pressure temp pm
    rw [accumulation_mem_iff]
    simp [Val.gtQ]
  refine ⟨fun ts p wind pressure temp pm => ⟨hlim ts p wind pressure temp pm,
    hacc ts p wind pressure temp pm, ?_⟩, ?_, ?_⟩
  · rw [goodDispersion_mem_iff]
    constructor
    · rintro ⟨-, hn4, hb⟩
      refine ⟨not_lt.mp hn4, ?_⟩
      simpa [Val.gtQ] using hb
    · rintro ⟨hp, hw⟩
      refine ⟨by intro hc; linarith, not_lt.mpr hp, ?_⟩
      simpa [Val.gtQ] using hw
  · exact (hlim "x" (8/10) 1 1025 5 (.num 60)).mpr (by norm_num)
  · exact (hacc "x" (8/10) 1 1025 5 (.num 60)).mpr (by norm_num)

lemma length_le_of_mem_createSequence (rows : List FeatureRow) :
    ∀ s ∈ createSequence rows, s.length ≤ 30 := by
  induction rows using createSequence.induct with
  | case1 => simp [createSequence]
  | case2 a => simp [createSequence, rowVals]
  | case3 a b => simp [createSequence, rowVals]
  | case4 a b c rest ih =>
    intro s hs
    simp only [createSequence, List.mem_cons] at hs
    rcases hs with h | h
    · subst h
      simp [rowVals]
    · exact ih s h

/-- C5: on fewer than 3 rows the run ends in the `InsufficientHistory`
condition (the "Not enough data" early return): nothing reaches the
classifier and nothing is sent; moreover no vector narrower than 30 is
ever handed to the classifier on any input. -/
theorem c5_insufficient_history :
    (∀ (df : List FeatureRow) (loadedModel : Option (List Val → ℚ)) (ts : String),
      df.length < 3 →
      (predictFromLastSequence df loadedModel ts).outcome = .notEnoughData ∧
      (predictFromLastSequence df loadedModel ts).classifierInputs = [] ∧
      (predictFromLastSequence df loadedModel ts).sentMessages = []) ∧
    (∀ (df : List FeatureRow) (loadedModel : Option (List Val → ℚ)) (ts : String)
      (v : List Val),
      v ∈ (predictFromLastSequence df loadedModel ts).classifierInputs →
      v.length = 30) := by
  constructor
  · intro df m ts h
    unfold predictFromLastSequence
    rw [if_pos h]
    exact ⟨rfl, rfl, rfl⟩
  · intro df m ts v hv
    by_cases h : df.length < 3
    · unfold predictFromLastSequence at hv
      rw [if_pos h] at hv
      simp at hv
    · unfold predictFromLastSequence at hv
      rw [if_neg h] at hv
      cases m with
      | none => simp at hv
      | some model =>
        simp only [List.mem_map] at hv
        obtain ⟨s, hs, rfl⟩ := hv
        have hle := length_le_of_mem_createSequence df s hs
        simp only [padTo30, List.length_append, List.length_replicate]
        omega

/-- C8: when loading the classifier artifact fails (`joblib.load` raises,
modelled as `loadedModel = none`), the run aborts: nothing reaches the
classifier, no message is composed or sent, and no best-effort message
with a default probability is produced. -/
theorem c8_model_load_abort (df : List FeatureRow) (ts : String) (h : 3 ≤ df.length) :
    (predictFromLastSequence df none ts).outcome = .modelLoadFailure ∧
    (predictFromLastSequence df none ts).classifierInputs = [] ∧
    (predictFromLastSequence df none ts).sentMessages = [] := by
  have hn : ¬ df.length < 3 := by omega
  unfold predictFromLastSequence
  rw [if_neg hn]
  exact ⟨rfl, rfl, rfl⟩

/-- C8 witness: the aborted run at a concrete 3-row history. -/
theorem c8_model_load_abort_witness :
    (predictFromLastSequence [obsA, obsB, obsC] none "t").outcome = .modelLoadFailure ∧
    (predictFromLastSequence [obsA, obsB, obsC] none "t").classifierInputs = [] ∧
    (predictFromLastSequence [obsA, obsB, obsC] none "t").sentMessages = [] :=
  c8_model_load_abort [obsA, obsB, obsC] "t" (by decide)

/-- C9: when the most recent row's PM10 value is missing (NaN), the run
still completes and sends its one message, and the Baseline PM10 figure is
rendered as the text `nan` (Python `f-string` formatting of a float NaN)
rather than raising or dropping the line. -/
theorem c9_nan_pm10_message (a b c : FeatureRow) (model : List Val → ℚ) (ts : String)
    (h : c.pm10 = .nan) :
    (predictFromLastSequence [a, b, c] (some model) ts).outcome = .completed ∧
    ∃ msg, (predictFromLastSequence [a, b, c] (some model) ts).sentMessages = [msg] ∧
      Segment.baseLine "nan" ∈ msg := by
  have hrun : predictFromLastSequence [a, b, c] (some model) ts =
      ⟨.completed, [padTo30 (rowVals a ++ rowVals b ++ rowVals c)],
       [composeMessage ts (model (padTo30 (rowVals a ++ rowVals b ++ rowVals c)))
          (.num c.wavg) (.num c.pravg) (.num c.tavg) c.pm10]⟩ := rfl
  rw [hrun]
  refine ⟨rfl, _, rfl, ?_⟩
  rw [h]
  simp [composeMessage, formatF0]

/-- C9 witness: the concrete run on a history whose latest PM10 is missing. -/
theorem c9_nan_pm10_message_witness :
    (predictFromLastSequence [obsA, obsB, obsN] (some stubModel) "t").outcome = .completed ∧
    ∃ msg, (predictFromLastSequence [obsA, obsB, obsN] (some stubModel) "t").sentMessages
        = [msg] ∧
      Segment.baseLine "nan" ∈ msg :=
  c9_nan_pm10_message obsA obsB obsN stubModel "t" rfl

lemma createSequence_length (rows : List FeatureRow) :
    (createSequence rows).length = (rows.length + 2) / 3 := by
  induction rows using createSequence.induct with
  | case1 => rfl
  | case2 a => simp [createSequence]
  | case3 a b => simp [createSequence]
  | case4 a b c rest ih =>
    simp only [createSequence, List.length_cons, ih]
    omega

lemma createSequence_eq_nil_iff (rows : List FeatureRow) :
    createSequence rows = [] ↔ rows = [] := by
  constructor
  · intro h
    have hl := createSequence_length rows
    rw [h] at hl
    simp only [List.length_nil] at hl
    have : rows.length = 0 := by omega
    exact List.length_eq_zero.mp this
  · intro h
    subst h
    rfl

lemma createSequence_getD (rows : List FeatureRow) (i : ℕ)
    (h : i < (createSequence rows).length) :
    (createSequence rows).getD i [] = (((rows.drop (3 * i)).take 3).map rowVals).flatten := by
  induction rows using createSequence.induct generalizing i with
  | case1 => simp [createSequence] at h
  | case2 a =>
    have h1 : i < 1 := by simpa [createSequence] using h
    have h0 : i = 0 := Nat.lt_one_iff.mp h1
    subst h0
    simp [createSequence]
  | case3 a b =>
    have h1 : i < 1 := by simpa [createSequence] using h
    have h0 : i = 0 := Nat.lt_one_iff.mp h1
    subst h0
    simp [createSequence]
  | case4 a b c rest ih =>
    cases i with
    | zero =>
      simp [createSequence, List.append_assoc]
    | succ n =>
      have hn : n < (createSequence rest).length := by
        simpa [createSequence] using h
      have hd : (a :: b :: c :: rest : List FeatureRow).drop (3 * (n + 1))
          = rest.drop (3 * n) := by
        have h3 : 3 * (n + 1) = 3 * n + 1 + 1 + 1 := by ring
        rw [h3]
        simp [List.drop_succ_cons]
      simp only [createSequence, List.getD_cons_succ]
      rw [ih n hn, hd]

lemma createSequence_getLast (rows : List FeatureRow) (h : rows.length % 3 ≠ 0) :
    ∃ v, (createSequence rows).getLast? = some v ∧ v.length = 10 * (rows.length % 3) := by
  induction rows using createSequence.induct with
  | case1 => simp at h
  | case2 a =>
    refine ⟨rowVals a, by simp [createSequence], ?_⟩
    simp [rowVals]
  | case3 a b =>
    refine ⟨rowVals a ++ rowVals b, by simp [createSequence], ?_⟩
    simp [rowVals]
  | case4 a b c rest ih =>
    have hmod : (a :: b :: c :: rest : List FeatureRow).length % 3 = rest.length % 3 := by
      simp only [List.length_cons]
      omega
    by_cases hr : rest = []
    · subst hr
      simp at h
    · obtain ⟨v, hv, hlen⟩ := ih (by rw [hmod] at h; exact h)
      refine ⟨v, ?_, by rw [hmod]; exact hlen⟩
      have hne : createSequence rest ≠ [] := by
        rw [Ne, createSequence_eq_nil_iff]
        exact hr
      obtain ⟨x, xs, hxs⟩ := List.exists_cons_of_ne_nil hne
      simp only [createSequence]
      rw [hxs] at hv ⊢
      rw [List.getLast?_cons_cons]
      exact hv

/-- C10: `create_sequence` walks the frame in consecutive non-overlapping
chunks of 3 from the first row, returning `ceil(n/3)` flattened vectors in
order (vector `i` is the row-major flattening of rows `3i..3i+2`); when
`n` is not a multiple of 3 the final vector is `10 * (n mod 3)` wide,
strictly narrower than 30; and on exactly 3 rows it returns the one 30-wide
row-major flattening of the input. -/
theorem c10_chunking (rows : List FeatureRow) :
    (createSequence rows).length = (rows.length + 2) / 3 ∧
    (∀ i, i < (createSequence rows).length →
      (createSequence rows).getD i [] = (((rows.drop (3 * i)).take 3).map rowVals).flatten) ∧
    (rows.length % 3 ≠ 0 →
      ∃ v, (createSequence rows).getLast? = some v ∧
        v.length = 10 * (rows.length % 3) ∧ 10 * (rows.length % 3) < 30) ∧
    (rows.length = 3 → createSequence rows = [(rows.map rowVals).flatten]) := by
  refine ⟨createSequence_length rows, fun i h => createSequence_getD rows i h, ?_, ?_⟩
  · intro h
    obtain ⟨v, hv, hlen⟩ := createSequence_getLast rows h
    exact ⟨v, hv, hlen, by omega⟩
  · intro h
    obtain ⟨a, b, c, habc⟩ := List.length_eq_three.mp h
    subst habc
    simp [createSequence, List.append_assoc]

lemma holidayContains_fst (holidayRule : CalDate → Bool) (cal : HolidayCalendar)
    (d : CalDate) : (holidayContains holidayRule cal d).1 = holidayRule d := by
  unfold holidayContains
  split_ifs <;> rfl

/-- C7: the `IsHoliday` lookup is 1 exactly when the date is a public
holiday by the configured national calendar's rule, and the calendar spans
the configured year range 2015–2030: construction eagerly populates
2015–2029, and the library's default `expand=True` lazily populates any
other requested year, so for every date of 2015–2030 the lookup resolves
by the national rule (to 0 or 1) and leaves the date's year populated. -/
theorem c7_holiday_lookup :
    (∀ (holidayRule : CalDate → Bool) (cal : HolidayCalendar) (d : CalDate),
      (isHolidayFlag holidayRule cal d = 1 ↔ holidayRule d = true) ∧
      (isHolidayFlag holidayRule cal d = 0 ∨ isHolidayFlag holidayRule cal d = 1)) ∧
    (∀ y : ℤ, 2015 ≤ y → y < 2030 → y ∈ mkPlHolidays.populatedYears) ∧
    (∀ (holidayRule : CalDate → Bool) (d : CalDate),
      2015 ≤ d.year → d.year ≤ 2030 →
      (holidayContains holidayRule mkPlHolidays d).1 = holidayRule d ∧
      d.year ∈ (holidayContains holidayRule mkPlHolidays d).2.populatedYears) := by
  refine ⟨?_, ?_, ?_⟩
  · intro rule cal d
    constructor
    · unfold isHolidayFlag
      rw [holidayContains_fst]
      split_ifs with h
      · simp [h]
      · simp [h]
    · unfold isHolidayFlag
      split_ifs <;> simp
  · intro y h1 h2
    simp only [mkPlHolidays, Finset.mem_Ico]
    exact ⟨h1, h2⟩
  · intro rule d h1 h2
    refine ⟨holidayContains_fst rule mkPlHolidays d, ?_⟩
    unfold holidayContains
    split_ifs with h
    · exact h
    · exact Finset.mem_insert_self d.year _

end PredictModel
